import Mathlib

/-!
Verification development for the payroll reconciliation engine
(`reconciliation_engine.py`, class `PayrollReconciliationEngine`).

The engine is embedded shallowly:

* a pandas payroll/GL row becomes a Lean structure with the columns the
  input contract prescribes; currency cells are modelled as exact
  rationals (`ℚ`);
* the mutable engine object (`self.payroll_df`, `self.gl_df`,
  `self.variances`, `self.flags`) becomes an explicit `Engine` record,
  and every method becomes a function `Engine → Engine`;
* Python's `round(x, 2)` (round-half-to-even) becomes `round2`, and
  the f-string formatting `f"{x:.2f}"` becomes `fmt2`;
* `reconcile()` returns its report and the mutated engine state.

A second, raw-table model (`RawTable`, `reconcileE`) tracks which
columns are present, mirroring pandas `KeyError` behaviour for missing
columns; it is used for the schema-error claims.  Non-numeric contents
of a numeric cell (the spec's separate type-error category) are outside
both models; columns are modelled by presence and by well-typed values.
-/

namespace Payroll

/-- One payroll-register row; fields follow the required payroll columns. -/
structure PayrollRow where
  Employee_ID : String
  Employee_Name : String
  Department : String
  Cost_Center : String
  Base_Salary : ℚ
  Overtime : ℚ
  Bonus : ℚ
  Gross_Pay : ℚ
  Pension_Deduction : ℚ
  Health_Insurance : ℚ
  Tax_Deduction : ℚ
  Total_Deductions : ℚ
  Net_Pay : ℚ
  Employer_Pension_Contribution : ℚ
  Employer_Benefits : ℚ
  Period : String
  deriving DecidableEq, Repr

/-- One general-ledger posting row. -/
structure GLRow where
  GL_Account : String
  Account_Description : String
  Cost_Center : String
  Debit : ℚ
  Credit : ℚ
  Posting_Date : String
  deriving DecidableEq, Repr

/-- A variance record as appended by the checks.  The Python dict key
`Type` is spelled `Type_` because `Type` is reserved in Lean. -/
structure Variance where
  Type_ : String
  Payroll_Amount : ℚ
  GL_Amount : ℚ
  Variance : ℚ
  Severity : String
  deriving DecidableEq, Repr

/-- A flag record as appended by the checks. -/
structure Flag where
  Category : String
  Issue : String
  Impact : String
  Action : String
  deriving DecidableEq, Repr

/-- The summary dict built by `_generate_report`. -/
structure Summary where
  Total_Variances : Nat
  High_Severity_Count : Nat
  Total_Variance_Amount : ℚ
  Total_Flags : Nat
  Reconciliation_Status : String
  deriving DecidableEq, Repr

/-- The report returned by `reconcile()`.  The pandas DataFrames built
from the accumulator lists keep the rows in insertion order, so they
are modelled by the lists themselves. -/
structure Report where
  summary : Summary
  variances : List Variance
  flags : List Flag
  deriving DecidableEq, Repr

/-- The engine instance: the two input tables and the two accumulator
lists (`self.variances`, `self.flags`). -/
structure Engine where
  payroll_df : List PayrollRow
  gl_df : List GLRow
  variances : List Variance
  flags : List Flag
  deriving DecidableEq, Repr

/-- `PayrollReconciliationEngine.__init__`: store the tables, start with
empty accumulators. -/
def Engine.init (payroll_df : List PayrollRow) (gl_df : List GLRow) : Engine :=
  ⟨payroll_df, gl_df, [], []⟩

/-! ### Python `round` and `:.2f` formatting -/

/-- Round a rational to the nearest integer, ties to even — the rounding
used by Python's built-in `round` on exact decimal inputs. -/
def rhe (x : ℚ) : ℤ :=
  let f := ⌊x⌋
  if x - f < 1/2 then f
  else if 1/2 < x - f then f + 1
  else if f % 2 = 0 then f else f + 1

/-- Python's `round(x, 2)`. -/
def round2 (q : ℚ) : ℚ := (rhe (q * 100) : ℚ) / 100

/-- Python's `f"{x:.2f}"` on an exact rational. -/
def fmt2 (x : ℚ) : String :=
  let n := rhe (x * 100)
  let a := n.natAbs
  (if n < 0 then "-" else "") ++ toString (a / 100) ++ "." ++
    (if a % 100 < 10 then "0" else "") ++ toString (a % 100)

/-- Sum of a numeric column: `df[col].sum()`. -/
def sumBy (l : List α) (f : α → ℚ) : ℚ := (l.map f).sum

/-! ### The column aggregates and differences used by the checks
(the local variables of the check methods, hoisted to definitions). -/

def total_gross (p : List PayrollRow) : ℚ := sumBy p (·.Gross_Pay)

def total_net (p : List PayrollRow) : ℚ := sumBy p (·.Net_Pay)

def total_deductions (p : List PayrollRow) : ℚ := sumBy p (·.Total_Deductions)

def gl_salary_expense (g : List GLRow) : ℚ :=
  sumBy (g.filter (fun r => r.GL_Account == "6100")) (·.Debit)

def gl_cash_payout (g : List GLRow) : ℚ :=
  sumBy (g.filter (fun r => r.GL_Account == "1010")) (·.Credit)

def gl_total_liabilities (g : List GLRow) : ℚ :=
  sumBy (g.filter (fun r => ["2110", "2120", "2130"].contains r.GL_Account)) (·.Credit)

def gross_variance (p : List PayrollRow) (g : List GLRow) : ℚ :=
  total_gross p - gl_salary_expense g

def net_variance (p : List PayrollRow) (g : List GLRow) : ℚ :=
  total_net p - gl_cash_payout g

def deduction_variance (p : List PayrollRow) (g : List GLRow) : ℚ :=
  total_deductions p - gl_total_liabilities g

def payroll_pension (p : List PayrollRow) : ℚ := sumBy p (·.Pension_Deduction)

def gl_pension_payable (g : List GLRow) : ℚ :=
  sumBy (g.filter (fun r => r.GL_Account == "2110")) (·.Credit)

def pension_variance (p : List PayrollRow) (g : List GLRow) : ℚ :=
  payroll_pension p - gl_pension_payable g

def payroll_employer_pension (p : List PayrollRow) : ℚ :=
  sumBy p (·.Employer_Pension_Contribution)

def gl_employer_pension (g : List GLRow) : ℚ :=
  sumBy (g.filter (fun r => r.GL_Account == "6120")) (·.Debit)

def employer_variance (p : List PayrollRow) (g : List GLRow) : ℚ :=
  payroll_employer_pension p - gl_employer_pension g

def payroll_employer_benefits (p : List PayrollRow) : ℚ :=
  sumBy p (·.Employer_Benefits)

def gl_benefits_expense (g : List GLRow) : ℚ :=
  sumBy (g.filter (fun r => r.GL_Account == "6130")) (·.Debit)

def benefits_variance (p : List PayrollRow) (g : List GLRow) : ℚ :=
  payroll_employer_benefits p - gl_benefits_expense g

def cc_payroll (p : List PayrollRow) (cc : String) : List PayrollRow :=
  p.filter (fun r => r.Cost_Center == cc)

def cc_gl (g : List GLRow) (cc : String) : List GLRow :=
  g.filter (fun r => r.Cost_Center == cc)

def cc_payroll_gross (p : List PayrollRow) (cc : String) : ℚ :=
  sumBy (cc_payroll p cc) (·.Gross_Pay)

def cc_gl_expense (g : List GLRow) (cc : String) : ℚ :=
  sumBy ((cc_gl g cc).filter (fun r => r.GL_Account == "6100")) (·.Debit)

def cc_variance (p : List PayrollRow) (g : List GLRow) (cc : String) : ℚ :=
  cc_payroll_gross p cc - cc_gl_expense g cc

/-- The type label of a cost-center variance record:
`f'Cost Center {cost_center} Variance'`. -/
def ccLabel (cc : String) : String := "Cost Center " ++ cc ++ " Variance"

/-- `pandas.Series.unique`: distinct values in order of first appearance. -/
def uniques [DecidableEq α] : List α → List α
  | [] => []
  | x :: xs => x :: (uniques xs).filter (fun y => y ≠ x)

/-- The distinct cost centers of the payroll table,
`self.payroll_df['Cost_Center'].unique()`. -/
def payrollCCs (p : List PayrollRow) : List String :=
  uniques (p.map (·.Cost_Center))

/-! ### The five check methods, as engine-state transformers -/

/-- `_check_totals`. -/
def checkTotals (e : Engine) : Engine :=
  let p := e.payroll_df
  let g := e.gl_df
  let e1 :=
    if |gross_variance p g| > 1/100 then
      { e with variances := e.variances ++
          [⟨"Gross Pay Variance", round2 (total_gross p), round2 (gl_salary_expense g),
            round2 (gross_variance p g),
            if |gross_variance p g| > 100 then "High" else "Medium"⟩] }
    else e
  let e2 :=
    if |net_variance p g| > 1/100 then
      { e1 with variances := e1.variances ++
          [⟨"Net Pay Variance", round2 (total_net p), round2 (gl_cash_payout g),
            round2 (net_variance p g), "High"⟩] }
    else e1
  if |deduction_variance p g| > 1/100 then
    { e2 with variances := e2.variances ++
        [⟨"Total Deductions Variance", round2 (total_deductions p),
          round2 (gl_total_liabilities g), round2 (deduction_variance p g), "Medium"⟩] }
  else e2

/-- `_check_pension_deductions`. -/
def checkPensionDeductions (e : Engine) : Engine :=
  let p := e.payroll_df
  let g := e.gl_df
  let e1 :=
    if |pension_variance p g| > 1/100 then
      { e with variances := e.variances ++
          [⟨"Pension Deduction Variance", round2 (payroll_pension p),
            round2 (gl_pension_payable g), round2 (pension_variance p g), "High"⟩] }
    else e
  if |employer_variance p g| > 1/100 then
    { e1 with
        variances := e1.variances ++
          [⟨"Employer Pension Contribution Variance", round2 (payroll_employer_pension p),
            round2 (gl_employer_pension g), round2 (employer_variance p g), "High"⟩],
        flags := e1.flags ++
          [⟨"Pension", "Employer pension contribution not fully accrued in GL",
            "Understated expense by $" ++ fmt2 |employer_variance p g|,
            "Post accrual adjustment before month-end close"⟩] }
  else e1

/-- `_check_benefit_accruals`: on an out-of-tolerance difference it
appends the flag and then the variance record. -/
def checkBenefitAccruals (e : Engine) : Engine :=
  let p := e.payroll_df
  let g := e.gl_df
  if |benefits_variance p g| > 1/100 then
    { e with
        flags := e.flags ++
          [⟨"Benefits Accrual", "Missing or incomplete employer benefit accruals",
            "Understated expense by $" ++ fmt2 |benefits_variance p g|,
            "Review and post missing benefit accrual entries"⟩],
        variances := e.variances ++
          [⟨"Employer Benefits Variance", round2 (payroll_employer_benefits p),
            round2 (gl_benefits_expense g), round2 (benefits_variance p g), "High"⟩] }
  else e

/-- `_check_retro_adjustments`. -/
def checkRetroAdjustments (e : Engine) : Engine :=
  let high_bonus := e.payroll_df.filter (fun r => decide (r.Bonus > 1000))
  let high_overtime := e.payroll_df.filter (fun r => decide (r.Overtime > 400))
  let e1 :=
    if high_bonus.length > 0 then
      { e with flags := e.flags ++
          [⟨"Retro Adjustment",
            toString high_bonus.length ++ " employees with high bonuses (>$1,000)",
            "Potential retroactive pay adjustments",
            "Verify if bonuses relate to prior periods and adjust accruals"⟩] }
    else e
  if high_overtime.length > 0 then
    { e1 with flags := e1.flags ++
        [⟨"Retro Adjustment",
          toString high_overtime.length ++ " employees with high overtime (>$400)",
          "May indicate prior period corrections",
          "Review for proper period allocation"⟩] }
  else e1

/-- `_validate_cost_center_balancing`: iterate the payroll table's
distinct cost centers and append one variance per out-of-tolerance one. -/
def validateCostCenterBalancing (e : Engine) : Engine :=
  (payrollCCs e.payroll_df).foldl
    (fun acc cost_center =>
      if |cc_variance acc.payroll_df acc.gl_df cost_center| > 1/100 then
        { acc with variances := acc.variances ++
            [⟨ccLabel cost_center, round2 (cc_payroll_gross acc.payroll_df cost_center),
              round2 (cc_gl_expense acc.gl_df cost_center),
              round2 (cc_variance acc.payroll_df acc.gl_df cost_center), "Medium"⟩] }
      else acc)
    e

/-- `_generate_report`, abstracted over the accumulator lists. -/
def generateReportFrom (variances : List Variance) (flags : List Flag) : Report :=
  let total_variances := variances.length
  let high_severity := (variances.filter (fun v => v.Severity == "High")).length
  let total_variance_amount := (variances.map (fun v => |v.Variance|)).sum
  { summary :=
      { Total_Variances := total_variances
        High_Severity_Count := high_severity
        Total_Variance_Amount := round2 total_variance_amount
        Total_Flags := flags.length
        Reconciliation_Status := if total_variances > 0 then "FAILED" else "PASSED" }
    variances := variances
    flags := flags }

/-- `_generate_report` on the engine state. -/
def generateReport (e : Engine) : Report := generateReportFrom e.variances e.flags

/-- The five checks in the order `reconcile()` runs them. -/
def runChecks (e : Engine) : Engine :=
  validateCostCenterBalancing
    (checkRetroAdjustments (checkBenefitAccruals (checkPensionDeductions (checkTotals e))))

/-- `reconcile()`: run the checks (mutating the accumulators) and return
the report together with the mutated engine. -/
def reconcile (e : Engine) : Report × Engine :=
  let e5 := runChecks e
  (generateReport e5, e5)

/-- The report of a single `reconcile()` call on a freshly constructed
engine. -/
def reportOf (p : List PayrollRow) (g : List GLRow) : Report :=
  (reconcile (Engine.init p g)).1

/-! ### The records each check appends, as pure functions of the inputs -/

/-- Variance records appended by `_check_totals`. -/
def totalsV (p : List PayrollRow) (g : List GLRow) : List Variance :=
  (if |gross_variance p g| > 1/100 then
    [⟨"Gross Pay Variance", round2 (total_gross p), round2 (gl_salary_expense g),
      round2 (gross_variance p g),
      if |gross_variance p g| > 100 then "High" else "Medium"⟩]
  else []) ++
  (if |net_variance p g| > 1/100 then
    [⟨"Net Pay Variance", round2 (total_net p), round2 (gl_cash_payout g),
      round2 (net_variance p g), "High"⟩]
  else []) ++
  (if |deduction_variance p g| > 1/100 then
    [⟨"Total Deductions Variance", round2 (total_deductions p),
      round2 (gl_total_liabilities g), round2 (deduction_variance p g), "Medium"⟩]
  else [])

/-- Variance records appended by `_check_pension_deductions`. -/
def pensionV (p : List PayrollRow) (g : List GLRow) : List Variance :=
  (if |pension_variance p g| > 1/100 then
    [⟨"Pension Deduction Variance", round2 (payroll_pension p),
      round2 (gl_pension_payable g), round2 (pension_variance p g), "High"⟩]
  else []) ++
  (if |employer_variance p g| > 1/100 then
    [⟨"Employer Pension Contribution Variance", round2 (payroll_employer_pension p),
      round2 (gl_employer_pension g), round2 (employer_variance p g), "High"⟩]
  else [])

/-- Flag records appended by `_check_pension_deductions`. -/
def pensionF (p : List PayrollRow) (g : List GLRow) : List Flag :=
  if |employer_variance p g| > 1/100 then
    [⟨"Pension", "Employer pension contribution not fully accrued in GL",
      "Understated expense by $" ++ fmt2 |employer_variance p g|,
      "Post accrual adjustment before month-end close"⟩]
  else []

/-- Variance records appended by `_check_benefit_accruals`. -/
def benefitV (p : List PayrollRow) (g : List GLRow) : List Variance :=
  if |benefits_variance p g| > 1/100 then
    [⟨"Employer Benefits Variance", round2 (payroll_employer_benefits p),
      round2 (gl_benefits_expense g), round2 (benefits_variance p g), "High"⟩]
  else []

/-- Flag records appended by `_check_benefit_accruals`. -/
def benefitF (p : List PayrollRow) (g : List GLRow) : List Flag :=
  if |benefits_variance p g| > 1/100 then
    [⟨"Benefits Accrual", "Missing or incomplete employer benefit accruals",
      "Understated expense by $" ++ fmt2 |benefits_variance p g|,
      "Review and post missing benefit accrual entries"⟩]
  else []

/-- Flag records appended by `_check_retro_adjustments`. -/
def retroF (p : List PayrollRow) : List Flag :=
  (if (p.filter (fun r => decide (r.Bonus > 1000))).length > 0 then
    [⟨"Retro Adjustment",
      toString (p.filter (fun r => decide (r.Bonus > 1000))).length ++
        " employees with high bonuses (>$1,000)",
      "Potential retroactive pay adjustments",
      "Verify if bonuses relate to prior periods and adjust accruals"⟩]
  else []) ++
  (if (p.filter (fun r => decide (r.Overtime > 400))).length > 0 then
    [⟨"Retro Adjustment",
      toString (p.filter (fun r => decide (r.Overtime > 400))).length ++
        " employees with high overtime (>$400)",
      "May indicate prior period corrections",
      "Review for proper period allocation"⟩]
  else [])

/-- The variance record `_validate_cost_center_balancing` appends for
one cost center, when out of tolerance. -/
def ccEmit (p : List PayrollRow) (g : List GLRow) (cc : String) : List Variance :=
  if |cc_variance p g cc| > 1/100 then
    [⟨ccLabel cc, round2 (cc_payroll_gross p cc), round2 (cc_gl_expense g cc),
      round2 (cc_variance p g cc), "Medium"⟩]
  else []

/-- Variance records appended by `_validate_cost_center_balancing`. -/
def ccV (p : List PayrollRow) (g : List GLRow) : List Variance :=
  (payrollCCs p).flatMap (ccEmit p g)

/-- All variance records a `reconcile()` call appends, in emission order. -/
def emittedV (p : List PayrollRow) (g : List GLRow) : List Variance :=
  totalsV p g ++ pensionV p g ++ benefitV p g ++ ccV p g

/-- All flag records a `reconcile()` call appends, in emission order. -/
def emittedF (p : List PayrollRow) (g : List GLRow) : List Flag :=
  pensionF p g ++ benefitF p g ++ retroF p

/-! ### Exact two-decimal amounts -/

/-- A rational that is an exact two-decimal amount (an integer number of
cents). -/
def TwoDec (q : ℚ) : Prop := ∃ z : ℤ, q = (z : ℚ) / 100

/-- `pre` is an initial segment of the second list. -/
def listPre : List Char → List Char → Bool
  | [], _ => true
  | _ :: _, [] => false
  | c :: cs, d :: ds => c == d && listPre cs ds

/-- `pat` occurs as a substring of `s`: an error message "names" a
column or table exactly when this holds for its name. -/
def mentionsStr (s pat : String) : Bool :=
  (List.range (s.data.length + 1)).any (fun i => listPre pat.data (s.data.drop i))

/-! ### Raw-table model: column presence and pandas `KeyError`

The typed model above assumes both tables carry every column the engine
reads.  To settle the schema-error claims, tables are remodelled as a
column list plus rows of cell values; `df[col]` becomes `colE`, which
fails like pandas — `KeyError(col)` carries only the column name.  The
error type is the `KeyError` argument, i.e. the column name string. -/

/-- A cell value: a currency number or a string tag. -/
inductive Value where
  | num (q : ℚ)
  | str (s : String)
  deriving DecidableEq, Repr

/-- A table as the upstream collaborator delivers it: the set of column
names actually present, and the rows (each a total assignment of cell
values to column names; only present columns are ever consulted). -/
structure RawTable where
  cols : List String
  rows : List (String → Value)

/-- `df[col]`: the column's values, or a `KeyError` naming only the
column, exactly as pandas raises it. -/
def colE (t : RawTable) (c : String) : Except String (List Value) :=
  if c ∈ t.cols then Except.ok (t.rows.map (fun r => r c)) else Except.error c

/-- `df[mask]` for a mask computed from column `c`: keeps the rows whose
`c`-cell satisfies the predicate; the column set is unchanged. -/
def filterBy (t : RawTable) (c : String) (pred : Value → Bool) : RawTable :=
  ⟨t.cols, t.rows.filter (fun r => pred (r c))⟩

/-- Numeric reading of a cell (non-numeric contents are the spec's
separate type-error category, outside this model). -/
def vnum : Value → ℚ
  | .num q => q
  | .str _ => 0

/-- Elementwise `series == 'lit'`: string cells compare by equality,
numeric cells compare unequal, as in pandas. -/
def vstrEq (v : Value) (s : String) : Bool :=
  match v with
  | .str t => t == s
  | .num _ => false

/-- Elementwise `series > q` for a numeric threshold. -/
def vnumGt (v : Value) (q : ℚ) : Bool :=
  match v with
  | .num x => decide (x > q)
  | .str _ => false

/-- `series.sum()` over a numeric column. -/
def sumNum (l : List Value) : ℚ := (l.map vnum).sum

/-- Python `str()` of a cell value, as interpolated into f-strings. -/
def showValue : Value → String
  | .str s => s
  | .num q => toString q

/-- Sequencing of fallible steps (the implicit control flow of the
Python method bodies: an uncaught `KeyError` aborts `reconcile()`). -/
def andThenE (x : Except String α) (k : α → Except String β) : Except String β :=
  match x with
  | .error e => .error e
  | .ok a => k a

/-- A `for` loop whose body can raise. -/
def foldE (l : List α) (f : β → α → Except String β) (init : β) : Except String β :=
  match l with
  | [] => .ok init
  | x :: xs => andThenE (f init x) (fun b => foldE xs f b)

/-- `reconcile()` on raw tables: the same checks as above, with every
column access explicit and fallible, in the source's evaluation order. -/
def reconcileE (pt gt : RawTable) : Except String Report :=
  -- _check_totals
  andThenE (colE pt "Gross_Pay") fun grossCol =>
  let total_gross := sumNum grossCol
  andThenE (colE pt "Net_Pay") fun netCol =>
  let total_net := sumNum netCol
  andThenE (colE pt "Total_Deductions") fun dedCol =>
  let total_deductions := sumNum dedCol
  andThenE (colE gt "GL_Account") fun _ =>
  andThenE (colE (filterBy gt "GL_Account" (fun v => vstrEq v "6100")) "Debit") fun debCol1 =>
  let gl_salary_expense := sumNum debCol1
  andThenE (colE gt "GL_Account") fun _ =>
  andThenE (colE (filterBy gt "GL_Account" (fun v => vstrEq v "1010")) "Credit") fun credCol1 =>
  let gl_cash_payout := sumNum credCol1
  andThenE (colE gt "GL_Account") fun _ =>
  andThenE (colE (filterBy gt "GL_Account"
      (fun v => vstrEq v "2110" || vstrEq v "2120" || vstrEq v "2130")) "Credit") fun credCol2 =>
  let gl_total_liabilities := sumNum credCol2
  let gross_var := total_gross - gl_salary_expense
  let net_var := total_net - gl_cash_payout
  let ded_var := total_deductions - gl_total_liabilities
  let vs1 : List Variance :=
    (if |gross_var| > 1/100 then
      [⟨"Gross Pay Variance", round2 total_gross, round2 gl_salary_expense,
        round2 gross_var, if |gross_var| > 100 then "High" else "Medium"⟩]
    else []) ++
    (if |net_var| > 1/100 then
      [⟨"Net Pay Variance", round2 total_net, round2 gl_cash_payout,
        round2 net_var, "High"⟩]
    else []) ++
    (if |ded_var| > 1/100 then
      [⟨"Total Deductions Variance", round2 total_deductions,
        round2 gl_total_liabilities, round2 ded_var, "Medium"⟩]
    else [])
  -- _check_pension_deductions
  andThenE (colE pt "Pension_Deduction") fun pdCol =>
  let payroll_pension := sumNum pdCol
  andThenE (colE gt "GL_Account") fun _ =>
  andThenE (colE (filterBy gt "GL_Account" (fun v => vstrEq v "2110")) "Credit") fun credCol3 =>
  let gl_pension_payable := sumNum credCol3
  let pension_var := payroll_pension - gl_pension_payable
  let vs2 := vs1 ++
    (if |pension_var| > 1/100 then
      [⟨"Pension Deduction Variance", round2 payroll_pension,
        round2 gl_pension_payable, round2 pension_var, "High"⟩]
    else [])
  andThenE (colE pt "Employer_Pension_Contribution") fun epCol =>
  let payroll_employer_pension := sumNum epCol
  andThenE (colE gt "GL_Account") fun _ =>
  andThenE (colE (filterBy gt "GL_Account" (fun v => vstrEq v "6120")) "Debit") fun debCol2 =>
  let gl_employer_pension := sumNum debCol2
  let employer_var := payroll_employer_pension - gl_employer_pension
  let vs3 := vs2 ++
    (if |employer_var| > 1/100 then
      [⟨"Employer Pension Contribution Variance", round2 payroll_employer_pension,
        round2 gl_employer_pension, round2 employer_var, "High"⟩]
    else [])
  let fl1 : List Flag :=
    if |employer_var| > 1/100 then
      [⟨"Pension", "Employer pension contribution not fully accrued in GL",
        "Understated expense by $" ++ fmt2 |employer_var|,
        "Post accrual adjustment before month-end close"⟩]
    else []
  -- _check_benefit_accruals
  andThenE (colE pt "Employer_Benefits") fun ebCol =>
  let payroll_employer_benefits := sumNum ebCol
  andThenE (colE gt "GL_Account") fun _ =>
  andThenE (colE (filterBy gt "GL_Account" (fun v => vstrEq v "6130")) "Debit") fun debCol3 =>
  let gl_benefits_expense := sumNum debCol3
  let benefits_var := payroll_employer_benefits - gl_benefits_expense
  let fl2 := fl1 ++
    (if |benefits_var| > 1/100 then
      [⟨"Benefits Accrual", "Missing or incomplete employer benefit accruals",
        "Understated expense by $" ++ fmt2 |benefits_var|,
        "Review and post missing benefit accrual entries"⟩]
    else [])
  let vs4 := vs3 ++
    (if |benefits_var| > 1/100 then
      [⟨"Employer Benefits Variance", round2 payroll_employer_benefits,
        round2 gl_benefits_expense, round2 benefits_var, "High"⟩]
    else [])
  -- _check_retro_adjustments
  andThenE (colE pt "Bonus") fun bonusCol =>
  andThenE (colE pt "Overtime") fun otCol =>
  let high_bonus := bonusCol.countP (fun v => vnumGt v 1000)
  let high_overtime := otCol.countP (fun v => vnumGt v 400)
  let fl3 := fl2 ++
    (if high_bonus > 0 then
      [⟨"Retro Adjustment",
        toString high_bonus ++ " employees with high bonuses (>$1,000)",
        "Potential retroactive pay adjustments",
        "Verify if bonuses relate to prior periods and adjust accruals"⟩]
    else []) ++
    (if high_overtime > 0 then
      [⟨"Retro Adjustment",
        toString high_overtime ++ " employees with high overtime (>$400)",
        "May indicate prior period corrections",
        "Review for proper period allocation"⟩]
    else [])
  -- _validate_cost_center_balancing
  andThenE (colE pt "Cost_Center") fun ccCol =>
  let ccs := uniques ccCol
  andThenE (foldE ccs
    (fun (acc : List Variance) cc =>
      andThenE (colE pt "Cost_Center") fun _ =>
      let ccp := filterBy pt "Cost_Center" (fun v => v == cc)
      andThenE (colE gt "Cost_Center") fun _ =>
      let ccg := filterBy gt "Cost_Center" (fun v => v == cc)
      andThenE (colE ccp "Gross_Pay") fun gpCol =>
      let payroll_gross := sumNum gpCol
      andThenE (colE ccg "GL_Account") fun _ =>
      andThenE (colE (filterBy ccg "GL_Account" (fun v => vstrEq v "6100")) "Debit") fun dCol =>
      let gl_expense := sumNum dCol
      let variance := payroll_gross - gl_expense
      Except.ok
        (if |variance| > 1/100 then
          acc ++ [⟨"Cost Center " ++ showValue cc ++ " Variance", round2 payroll_gross,
            round2 gl_expense, round2 variance, "Medium"⟩]
        else acc))
    vs4) fun vs5 =>
  Except.ok (generateReportFrom vs5 fl3)

/-- The payroll columns the input contract requires (spec §6). -/
def requiredPayrollCols : List String :=
  ["Employee_ID", "Employee_Name", "Department", "Cost_Center", "Base_Salary",
   "Overtime", "Bonus", "Gross_Pay", "Pension_Deduction", "Health_Insurance",
   "Tax_Deduction", "Total_Deductions", "Net_Pay", "Employer_Pension_Contribution",
   "Employer_Benefits", "Period"]

/-- The GL columns the input contract requires (spec §6). -/
def requiredGLCols : List String :=
  ["GL_Account", "Account_Description", "Cost_Center", "Debit", "Credit", "Posting_Date"]

/-- The payroll columns the engine actually reads. -/
def readPayrollCols : List String :=
  ["Gross_Pay", "Net_Pay", "Total_Deductions", "Pension_Deduction",
   "Employer_Pension_Contribution", "Employer_Benefits", "Bonus", "Overtime",
   "Cost_Center"]

/-- The GL columns the engine actually reads. -/
def readGLCols : List String :=
  ["GL_Account", "Debit", "Credit", "Cost_Center"]

/-! ### Concrete sample data for witnesses and counterexamples -/

/-- A payroll row with all amounts zero. -/
def pRow0 : PayrollRow :=
  ⟨"E001", "Ada", "Ops", "CC1", 0, 0, 0, 0, 0, 0, 0, 0, 0, 0, 0, "2024-01"⟩

/-- A GL posting row on account 6100 with zero amounts. -/
def gRow0 : GLRow := ⟨"6100", "Salary Expense", "CC1", 0, 0, "2024-01-31"⟩

/-- One employee with gross pay 100 and an empty GL: the totals check
and the cost-center check each emit one variance. -/
def pGross100 : List PayrollRow := [{ pRow0 with Gross_Pay := 100 }]

/-- Scenario B of the spec: payroll employer benefits 800, GL empty. -/
def pBenefits800 : List PayrollRow := [{ pRow0 with Employer_Benefits := 800 }]

/-- Scenario C of the spec, payroll side: CC1 balanced, CC2 off by 1000. -/
def pTwoCC : List PayrollRow :=
  [{ pRow0 with Cost_Center := "CC1", Gross_Pay := 50 },
   { pRow0 with Cost_Center := "CC2", Gross_Pay := 10000 }]

/-- Scenario C of the spec, GL side. -/
def gTwoCC : List GLRow :=
  [{ gRow0 with Cost_Center := "CC1", Debit := 50 },
   { gRow0 with Cost_Center := "CC2", Debit := 9000 }]

/-- One employee with gross pay exactly 0.01 and an empty GL: every
difference is within tolerance. -/
def pGrossTol : List PayrollRow := [{ pRow0 with Gross_Pay := 1/100 }]

/-- One employee with gross pay 0.0100001 and an empty GL: the gross
difference just exceeds tolerance. -/
def pGrossJust : List PayrollRow := [{ pRow0 with Gross_Pay := 100001/10000000 }]

/-- A raw payroll table with every required column except `Gross_Pay`,
and no rows. -/
def pRawNoGross : RawTable :=
  ⟨requiredPayrollCols.filter (fun c => c ≠ "Gross_Pay"), []⟩

/-- A raw GL table with every required column and no rows. -/
def gRawFull : RawTable := ⟨requiredGLCols, []⟩

/-- A raw payroll table with every required column and no rows. -/
def pRawFull : RawTable := ⟨requiredPayrollCols, []⟩

/-- A raw payroll table missing only the required-but-never-read column
`Employee_Name`. -/
def pRawNoName : RawTable :=
  ⟨requiredPayrollCols.filter (fun c => c ≠ "Employee_Name"), []⟩

/-- The gross-pay variance record that `pGross100` with an empty GL
produces. -/
def vGross100 : Variance := ⟨"Gross Pay Variance", 100, 0, 100, "Medium"⟩

/-! ### Each check acts by appending its emissions -/

theorem checkTotals_eq (p : List PayrollRow) (g : List GLRow)
    (vs : List Variance) (fs : List Flag) :
    checkTotals ⟨p, g, vs, fs⟩ = ⟨p, g, vs ++ totalsV p g, fs⟩ := by
  simp only [checkTotals, totalsV]
  split_ifs <;> simp

theorem checkPensionDeductions_eq (p : List PayrollRow) (g : List GLRow)
    (vs : List Variance) (fs : List Flag) :
    checkPensionDeductions ⟨p, g, vs, fs⟩ = ⟨p, g, vs ++ pensionV p g, fs ++ pensionF p g⟩ := by
  simp only [checkPensionDeductions, pensionV, pensionF]
  split_ifs <;> simp

theorem checkBenefitAccruals_eq (p : List PayrollRow) (g : List GLRow)
    (vs : List Variance) (fs : List Flag) :
    checkBenefitAccruals ⟨p, g, vs, fs⟩ = ⟨p, g, vs ++ benefitV p g, fs ++ benefitF p g⟩ := by
  simp only [checkBenefitAccruals, benefitV, benefitF]
  split_ifs <;> simp

theorem checkRetroAdjustments_eq (p : List PayrollRow) (g : List GLRow)
    (vs : List Variance) (fs : List Flag) :
    checkRetroAdjustments ⟨p, g, vs, fs⟩ = ⟨p, g, vs, fs ++ retroF p⟩ := by
  simp only [checkRetroAdjustments, retroF]
  split_ifs <;> simp

theorem ccEmit_of_pos (p : List PayrollRow) (g : List GLRow) (cc : String)
    (h : |cc_variance p g cc| > 1/100) :
    ccEmit p g cc =
      [⟨ccLabel cc, round2 (cc_payroll_gross p cc), round2 (cc_gl_expense g cc),
        round2 (cc_variance p g cc), "Medium"⟩] := by
  unfold ccEmit
  rw [if_pos h]

theorem ccEmit_of_neg (p : List PayrollRow) (g : List GLRow) (cc : String)
    (h : ¬ |cc_variance p g cc| > 1/100) :
    ccEmit p g cc = [] := by
  unfold ccEmit
  rw [if_neg h]

theorem ccFold_eq (p : List PayrollRow) (g : List GLRow) (l : List String) :
    ∀ (vs : List Variance) (fs : List Flag),
      (l.foldl
        (fun acc cost_center =>
          if |cc_variance acc.payroll_df acc.gl_df cost_center| > 1/100 then
            { acc with variances := acc.variances ++
                [⟨ccLabel cost_center, round2 (cc_payroll_gross acc.payroll_df cost_center),
                  round2 (cc_gl_expense acc.gl_df cost_center),
                  round2 (cc_variance acc.payroll_df acc.gl_df cost_center), "Medium"⟩] }
          else acc)
        (⟨p, g, vs, fs⟩ : Engine)) = ⟨p, g, vs ++ l.flatMap (ccEmit p g), fs⟩ := by
  induction l with
  | nil => intro vs fs; simp
  | cons cc l ih =>
    intro vs fs
    simp only [List.foldl_cons]
    by_cases h : |cc_variance p g cc| > 1/100
    · simp only [if_pos h]
      rw [ih]
      simp [ccEmit_of_pos p g cc h]
    · simp only [if_neg h]
      rw [ih]
      simp [ccEmit_of_neg p g cc h]

theorem validateCostCenterBalancing_eq (p : List PayrollRow) (g : List GLRow)
    (vs : List Variance) (fs : List Flag) :
    validateCostCenterBalancing ⟨p, g, vs, fs⟩ = ⟨p, g, vs ++ ccV p g, fs⟩ := by
  simpa [validateCostCenterBalancing, ccV] using ccFold_eq p g (payrollCCs p) vs fs

/-- `reconcile()`'s check phase appends exactly `emittedV`/`emittedF` to
whatever is already in the accumulators. -/
theorem runChecks_eq (p : List PayrollRow) (g : List GLRow)
    (vs : List Variance) (fs : List Flag) :
    runChecks ⟨p, g, vs, fs⟩ = ⟨p, g, vs ++ emittedV p g, fs ++ emittedF p g⟩ := by
  simp [runChecks, checkTotals_eq, checkPensionDeductions_eq, checkBenefitAccruals_eq,
    checkRetroAdjustments_eq, validateCostCenterBalancing_eq, emittedV, emittedF]

theorem reportOf_eq (p : List PayrollRow) (g : List GLRow) :
    reportOf p g = generateReportFrom (emittedV p g) (emittedF p g) := by
  simp [reportOf, reconcile, Engine.init, runChecks_eq, generateReport]

theorem reportOf_variances (p : List PayrollRow) (g : List GLRow) :
    (reportOf p g).variances = emittedV p g := by
  rw [reportOf_eq]; rfl

theorem reportOf_flags (p : List PayrollRow) (g : List GLRow) :
    (reportOf p g).flags = emittedF p g := by
  rw [reportOf_eq]; rfl

/-! ### Two-decimal arithmetic facts -/

theorem rhe_intCast (z : ℤ) : rhe (z : ℚ) = z := by
  norm_num [rhe]

theorem round2_twoDec (q : ℚ) : TwoDec (round2 q) := ⟨rhe (q * 100), rfl⟩

theorem TwoDec.round2_eq {q : ℚ} (h : TwoDec q) : round2 q = q := by
  obtain ⟨z, rfl⟩ := h
  have hz : ((z : ℚ) / 100) * 100 = (z : ℚ) := by field_simp
  rw [round2, hz, rhe_intCast]

theorem TwoDec.add {a b : ℚ} (ha : TwoDec a) (hb : TwoDec b) : TwoDec (a + b) := by
  obtain ⟨x, rfl⟩ := ha
  obtain ⟨y, rfl⟩ := hb
  exact ⟨x + y, by push_cast; ring⟩

theorem TwoDec.abs {a : ℚ} (ha : TwoDec a) : TwoDec |a| := by
  obtain ⟨x, rfl⟩ := ha
  refine ⟨|x|, ?_⟩
  rw [abs_div]
  push_cast
  norm_num

theorem twoDec_sum (l : List ℚ) (h : ∀ x ∈ l, TwoDec x) : TwoDec l.sum := by
  induction l with
  | nil => exact ⟨0, by norm_num⟩
  | cons x xs ih =>
    simp only [List.sum_cons]
    exact TwoDec.add (h x (by simp)) (ih fun y hy => h y (by simp [hy]))

/-- Every emitted variance record stores a `round(…, 2)` value in its
`Variance` field. -/
theorem emittedV_twoDec (p : List PayrollRow) (g : List GLRow) :
    ∀ v ∈ emittedV p g, TwoDec v.Variance := by
  intro v hv
  simp only [emittedV, List.mem_append] at hv
  rcases hv with ((hv | hv) | hv) | hv
  · simp only [totalsV, List.mem_append] at hv
    rcases hv with (hv | hv) | hv <;>
      (split_ifs at hv <;> simp_all) <;> exact round2_twoDec _
  · simp only [pensionV, List.mem_append] at hv
    rcases hv with hv | hv <;>
      (split_ifs at hv <;> simp_all) <;> exact round2_twoDec _
  · simp only [benefitV] at hv
    split_ifs at hv <;> simp_all
    exact round2_twoDec _
  · simp only [ccV, List.mem_flatMap] at hv
    obtain ⟨cc, _, hv⟩ := hv
    simp only [ccEmit] at hv
    split_ifs at hv <;> simp_all
    exact round2_twoDec _

/-- Every emitted variance record's severity is High or Medium. -/
theorem emittedV_severity (p : List PayrollRow) (g : List GLRow) :
    ∀ v ∈ emittedV p g, v.Severity = "High" ∨ v.Severity = "Medium" := by
  intro v hv
  simp only [emittedV, List.mem_append] at hv
  rcases hv with ((hv | hv) | hv) | hv
  · simp only [totalsV, List.mem_append] at hv
    rcases hv with (hv | hv) | hv
    · split_ifs at hv <;> simp_all
    · split_ifs at hv <;> simp_all
    · split_ifs at hv <;> simp_all
  · simp only [pensionV, List.mem_append] at hv
    rcases hv with hv | hv <;> (split_ifs at hv <;> simp_all)
  · simp only [benefitV] at hv
    split_ifs at hv <;> simp_all
  · simp only [ccV, List.mem_flatMap] at hv
    obtain ⟨cc, _, hv⟩ := hv
    simp only [ccEmit] at hv
    split_ifs at hv <;> simp_all

theorem round2_intCast (z : ℤ) : round2 (z : ℚ) = z := by
  have h : ((z : ℚ) * 100) = ((z * 100 : ℤ) : ℚ) := by push_cast; ring
  rw [round2, h, rhe_intCast]
  push_cast
  field_simp

theorem round2_natCast (n : ℕ) : round2 (n : ℚ) = n := by
  simpa using round2_intCast n

/-! ### Distinct cost centers: `uniques` facts -/

theorem mem_uniques [DecidableEq α] {a : α} : ∀ {l : List α}, a ∈ uniques l ↔ a ∈ l := by
  intro l
  induction l with
  | nil => simp [uniques]
  | cons x xs ih =>
    simp only [uniques, List.mem_cons, List.mem_filter]
    constructor
    · rintro (rfl | ⟨h1, _⟩)
      · exact Or.inl rfl
      · exact Or.inr (ih.mp h1)
    · rintro (rfl | h)
      · exact Or.inl rfl
      · by_cases hax : a = x
        · exact Or.inl hax
        · exact Or.inr ⟨ih.mpr h, by simpa using hax⟩

theorem uniques_nodup [DecidableEq α] : ∀ l : List α, (uniques l).Nodup := by
  intro l
  induction l with
  | nil => simp [uniques]
  | cons x xs ih =>
    simp only [uniques, List.nodup_cons]
    refine ⟨fun hx => ?_, ih.filter _⟩
    have := (List.mem_filter.mp hx).2
    simp at this

theorem ccLabel_inj {a b : String} (h : ccLabel a = ccLabel b) : a = b := by
  simp only [ccLabel] at h
  have h2 := congrArg String.data h
  simp only [String.data_append] at h2
  have h3 := List.append_cancel_right h2
  have h4 := List.append_cancel_left h3
  exact String.ext h4

/-! ### Counting cost-center variance records by type label -/

theorem countP_ccEmit_self (p : List PayrollRow) (g : List GLRow) (cc : String) :
    (ccEmit p g cc).countP (fun v => v.Type_ == ccLabel cc) =
      if |cc_variance p g cc| > 1/100 then 1 else 0 := by
  unfold ccEmit
  split_ifs <;> simp [List.countP_cons]

theorem countP_ccEmit_ne (p : List PayrollRow) (g : List GLRow) {cc cc' : String}
    (hne : cc' ≠ cc) :
    (ccEmit p g cc').countP (fun v => v.Type_ == ccLabel cc) = 0 := by
  have hl : ¬ (ccLabel cc' = ccLabel cc) := fun h => hne (ccLabel_inj h)
  unfold ccEmit
  split_ifs <;> simp [List.countP_cons, hl]

theorem countP_flatMap_ccEmit_zero (p : List PayrollRow) (g : List GLRow) (cc : String) :
    ∀ l : List String, cc ∉ l →
      ((l.flatMap (ccEmit p g)).countP (fun v => v.Type_ == ccLabel cc)) = 0 := by
  intro l
  induction l with
  | nil => simp
  | cons x xs ih =>
    intro hmem
    simp only [List.mem_cons, not_or] at hmem
    simp only [List.flatMap_cons, List.countP_append]
    rw [countP_ccEmit_ne p g (fun h => hmem.1 h.symm), ih hmem.2]

theorem countP_flatMap_ccEmit (p : List PayrollRow) (g : List GLRow) (cc : String) :
    ∀ l : List String, l.Nodup → cc ∈ l →
      ((l.flatMap (ccEmit p g)).countP (fun v => v.Type_ == ccLabel cc)) =
        if |cc_variance p g cc| > 1/100 then 1 else 0 := by
  intro l
  induction l with
  | nil => simp
  | cons x xs ih =>
    intro hnd hmem
    simp only [List.nodup_cons] at hnd
    simp only [List.flatMap_cons, List.countP_append]
    rcases List.mem_cons.mp hmem with rfl | hmem'
    · rw [countP_ccEmit_self, countP_flatMap_ccEmit_zero p g cc xs hnd.1]
      omega
    · have hne : x ≠ cc := fun h => hnd.1 (h ▸ hmem')
      rw [countP_ccEmit_ne p g hne, ih hnd.2 hmem']
      omega

/-! ### Claim theorems -/

/-- Claim C3: for every pair of input tables, the report's
`Reconciliation_Status` is `FAILED` exactly when the variance list is
non-empty and `PASSED` exactly when it is empty, independent of flags. -/
theorem status_failed_iff_variances (p : List PayrollRow) (g : List GLRow) :
    ((reportOf p g).summary.Reconciliation_Status = "FAILED" ↔
      (reportOf p g).variances ≠ []) ∧
    ((reportOf p g).summary.Reconciliation_Status = "PASSED" ↔
      (reportOf p g).variances = []) := by
  rw [reportOf_eq]
  simp only [generateReportFrom]
  by_cases h : emittedV p g = []
  · simp [h]
  · have hl : 0 < (emittedV p g).length := List.length_pos.mpr h
    simp [h, hl]

/-- Claim C4: the summary's `Total_Variance_Amount` is the sum of the
absolute `Variance` fields of the report's variance records rounded to
two decimals; moreover the rounding is exact, since every stored
`Variance` already has two decimals. -/
theorem total_variance_amount_spec (p : List PayrollRow) (g : List GLRow) :
    (reportOf p g).summary.Total_Variance_Amount
        = round2 (((reportOf p g).variances.map (fun v => |v.Variance|)).sum) ∧
    (reportOf p g).summary.Total_Variance_Amount
        = ((reportOf p g).variances.map (fun v => |v.Variance|)).sum := by
  have h1 : (reportOf p g).summary.Total_Variance_Amount
      = round2 (((reportOf p g).variances.map (fun v => |v.Variance|)).sum) := by
    rw [reportOf_eq]; rfl
  refine ⟨h1, ?_⟩
  rw [h1, reportOf_variances]
  refine TwoDec.round2_eq (twoDec_sum _ (fun x hx => ?_))
  simp only [List.mem_map] at hx
  obtain ⟨v, hv, rfl⟩ := hx
  exact (emittedV_twoDec p g v hv).abs

/-- Claim C9: no variance record ever carries severity `Low`; every
emitted severity is `High` or `Medium`, although the data model admits
any severity string. -/
theorem reconcile_no_low_severity (p : List PayrollRow) (g : List GLRow) :
    ((reportOf p g).variances.all (fun v =>
      (v.Severity == "High" || v.Severity == "Medium") && !(v.Severity == "Low"))) = true := by
  rw [List.all_eq_true]
  intro v hv
  rw [reportOf_variances] at hv
  have h := emittedV_severity p g v hv
  rcases h with h | h <;> simp [h]

/-- Claim C5: each payroll-vs-GL comparison emits its variance record
exactly when the absolute difference strictly exceeds the 0.01
tolerance; a difference of exactly 0.01 emits nothing and one of
0.0100001 emits the record. -/
theorem variance_iff_tolerance (p : List PayrollRow) (g : List GLRow) :
    (((totalsV p g).any fun v => v.Type_ == "Gross Pay Variance") = true ↔
      |gross_variance p g| > 1/100) ∧
    (((totalsV p g).any fun v => v.Type_ == "Net Pay Variance") = true ↔
      |net_variance p g| > 1/100) ∧
    (((totalsV p g).any fun v => v.Type_ == "Total Deductions Variance") = true ↔
      |deduction_variance p g| > 1/100) ∧
    (((pensionV p g).any fun v => v.Type_ == "Pension Deduction Variance") = true ↔
      |pension_variance p g| > 1/100) ∧
    (((pensionV p g).any fun v => v.Type_ == "Employer Pension Contribution Variance") = true ↔
      |employer_variance p g| > 1/100) ∧
    (((benefitV p g).any fun v => v.Type_ == "Employer Benefits Variance") = true ↔
      |benefits_variance p g| > 1/100) ∧
    (∀ cc ∈ payrollCCs p,
      (((ccV p g).any fun v => v.Type_ == ccLabel cc) = true ↔
        |cc_variance p g cc| > 1/100)) ∧
    (|gross_variance p g| = 1/100 →
      ((totalsV p g).any fun v => v.Type_ == "Gross Pay Variance") = false) ∧
    (|gross_variance p g| = 100001/10000000 →
      ((totalsV p g).any fun v => v.Type_ == "Gross Pay Variance") = true) := by
  have hg : ((totalsV p g).any fun v => v.Type_ == "Gross Pay Variance") = true ↔
      |gross_variance p g| > 1/100 := by
    unfold totalsV; split_ifs <;> simp_all
  have hn : ((totalsV p g).any fun v => v.Type_ == "Net Pay Variance") = true ↔
      |net_variance p g| > 1/100 := by
    unfold totalsV; split_ifs <;> simp_all
  have hd : ((totalsV p g).any fun v => v.Type_ == "Total Deductions Variance") = true ↔
      |deduction_variance p g| > 1/100 := by
    unfold totalsV; split_ifs <;> simp_all
  have hp1 : ((pensionV p g).any fun v => v.Type_ == "Pension Deduction Variance") = true ↔
      |pension_variance p g| > 1/100 := by
    unfold pensionV; split_ifs <;> simp_all
  have hp2 : ((pensionV p g).any fun v =>
      v.Type_ == "Employer Pension Contribution Variance") = true ↔
      |employer_variance p g| > 1/100 := by
    unfold pensionV; split_ifs <;> simp_all
  have hb : ((benefitV p g).any fun v => v.Type_ == "Employer Benefits Variance") = true ↔
      |benefits_variance p g| > 1/100 := by
    unfold benefitV; split_ifs <;> simp_all
  refine ⟨hg, hn, hd, hp1, hp2, hb, ?_, ?_, ?_⟩
  · intro cc hcc
    have h : (ccV p g).countP (fun v => v.Type_ == ccLabel cc) =
        if |cc_variance p g cc| > 1/100 then 1 else 0 := by
      simpa [ccV] using countP_flatMap_ccEmit p g cc (payrollCCs p) (uniques_nodup _) hcc
    constructor
    · intro hany
      by_contra hc
      rw [if_neg hc] at h
      rw [List.any_eq_true] at hany
      obtain ⟨v, hv, hpv⟩ := hany
      have hz := List.countP_eq_zero.mp h v hv
      simp_all
    · intro hc
      rw [if_pos hc] at h
      have hpos : 0 < (ccV p g).countP (fun v => v.Type_ == ccLabel cc) := by omega
      obtain ⟨v, hv, hpv⟩ := List.countP_pos.mp hpos
      rw [List.any_eq_true]
      exact ⟨v, hv, hpv⟩
  · intro heq
    have hno : ¬ (|gross_variance p g| > 1/100) := by rw [heq]; exact lt_irrefl _
    rw [← hg] at hno
    simpa using hno
  · intro heq
    rw [hg, heq]
    norm_num

/-- Claim C6: in the totals check, the gross-pay record is `High` iff
the absolute difference strictly exceeds 100 (with exactly 100 giving
`Medium` and 100.01 giving `High`), the net-pay record is always
`High`, and the deductions record is always `Medium`. -/
theorem totals_severity_policy (p : List PayrollRow) (g : List GLRow) :
    (∀ v ∈ totalsV p g,
      (v.Type_ = "Gross Pay Variance" →
        v.Severity = if |gross_variance p g| > 100 then "High" else "Medium") ∧
      (v.Type_ = "Net Pay Variance" → v.Severity = "High") ∧
      (v.Type_ = "Total Deductions Variance" → v.Severity = "Medium")) ∧
    (|gross_variance p g| = 100 →
      ∃ v ∈ totalsV p g, v.Type_ = "Gross Pay Variance" ∧ v.Severity = "Medium") ∧
    (|gross_variance p g| = 10001/100 →
      ∃ v ∈ totalsV p g, v.Type_ = "Gross Pay Variance" ∧ v.Severity = "High") := by
  refine ⟨?_, ?_, ?_⟩
  · intro v hv
    simp only [totalsV, List.mem_append] at hv
    rcases hv with (hv | hv) | hv
    · by_cases h1 : |gross_variance p g| > 1/100
      · rw [if_pos h1, List.mem_singleton] at hv
        subst hv
        refine ⟨fun _ => rfl, ?_, ?_⟩ <;> (intro hTy; simp at hTy)
      · rw [if_neg h1] at hv
        simp at hv
    · by_cases h1 : |net_variance p g| > 1/100
      · rw [if_pos h1, List.mem_singleton] at hv
        subst hv
        refine ⟨?_, fun _ => rfl, ?_⟩ <;> (intro hTy; simp at hTy)
      · rw [if_neg h1] at hv
        simp at hv
    · by_cases h1 : |deduction_variance p g| > 1/100
      · rw [if_pos h1, List.mem_singleton] at hv
        subst hv
        refine ⟨?_, ?_, fun _ => rfl⟩ <;> (intro hTy; simp at hTy)
      · rw [if_neg h1] at hv
        simp at hv
  · intro heq
    have hgt : |gross_variance p g| > 1/100 := by rw [heq]; norm_num
    have hnot : ¬ (|gross_variance p g| > 100) := by rw [heq]; norm_num
    refine ⟨⟨"Gross Pay Variance", round2 (total_gross p), round2 (gl_salary_expense g),
      round2 (gross_variance p g),
      if |gross_variance p g| > 100 then "High" else "Medium"⟩, ?_, rfl, ?_⟩
    · unfold totalsV
      rw [if_pos hgt]
      simp only [List.mem_append, List.mem_singleton]
      exact Or.inl (Or.inl trivial)
    · rw [if_neg hnot]
  · intro heq
    have hgt : |gross_variance p g| > 1/100 := by rw [heq]; norm_num
    have hyes : |gross_variance p g| > 100 := by rw [heq]; norm_num
    refine ⟨⟨"Gross Pay Variance", round2 (total_gross p), round2 (gl_salary_expense g),
      round2 (gross_variance p g),
      if |gross_variance p g| > 100 then "High" else "Medium"⟩, ?_, rfl, ?_⟩
    · unfold totalsV
      rw [if_pos hgt]
      simp only [List.mem_append, List.mem_singleton]
      exact Or.inl (Or.inl trivial)
    · rw [if_pos hyes]

/-- Claim C7: the benefit-accruals check emits its flag and its
variance together — exactly one of each when out of tolerance, neither
otherwise — and the single check step appends both. -/
theorem benefit_flag_variance_pairing (p : List PayrollRow) (g : List GLRow) :
    (|benefits_variance p g| > 1/100 →
      (benefitF p g).map (fun f => f.Category) = ["Benefits Accrual"] ∧
      (benefitV p g).map (fun v => (v.Type_, v.Severity)) =
        [("Employer Benefits Variance", "High")]) ∧
    (¬ |benefits_variance p g| > 1/100 → benefitF p g = [] ∧ benefitV p g = []) ∧
    (benefitF p g).length = (benefitV p g).length ∧
    (∀ e : Engine, checkBenefitAccruals e =
      { e with flags := e.flags ++ benefitF e.payroll_df e.gl_df,
               variances := e.variances ++ benefitV e.payroll_df e.gl_df }) := by
  refine ⟨?_, ?_, ?_, ?_⟩
  · intro h
    refine ⟨?_, ?_⟩
    · unfold benefitF; split_ifs <;> simp_all
    · unfold benefitV; split_ifs <;> simp_all
  · intro h
    refine ⟨?_, ?_⟩
    · unfold benefitF; split_ifs <;> simp_all
    · unfold benefitV; split_ifs <;> simp_all
  · unfold benefitF benefitV
    split_ifs <;> simp
  · intro e
    obtain ⟨p', g', vs, fs⟩ := e
    exact checkBenefitAccruals_eq p' g' vs fs

/-- Claim C8: the cost-center check emits exactly one `Medium` variance
per out-of-tolerance payroll cost center, labelled with that cost
center, and every emitted record corresponds to a cost center of the
payroll table (GL-only cost centers are never examined). -/
theorem cost_center_balancing_policy (p : List PayrollRow) (g : List GLRow) :
    (∀ cc ∈ payrollCCs p,
      ((ccV p g).countP (fun v => v.Type_ == ccLabel cc)) =
        if |cc_variance p g cc| > 1/100 then 1 else 0) ∧
    (∀ v ∈ ccV p g, v.Severity = "Medium" ∧
      ∃ cc ∈ payrollCCs p, v.Type_ = ccLabel cc ∧ |cc_variance p g cc| > 1/100) := by
  constructor
  · intro cc hcc
    simpa [ccV] using countP_flatMap_ccEmit p g cc (payrollCCs p) (uniques_nodup _) hcc
  · intro v hv
    simp only [ccV, List.mem_flatMap] at hv
    obtain ⟨cc, hcc, hv⟩ := hv
    unfold ccEmit at hv
    split_ifs at hv with h
    · simp only [List.mem_singleton] at hv
      subst hv
      exact ⟨rfl, cc, hcc, rfl, h⟩
    · simp at hv

/-- Claim C10: a single `reconcile()` emits at most 4 flags — at most
one `Pension`, at most one `Benefits Accrual`, at most two
`Retro Adjustment` — and no other category ever occurs. -/
theorem reconcile_flags_policy (p : List PayrollRow) (g : List GLRow) :
    (reportOf p g).flags.length ≤ 4 ∧
    ((reportOf p g).flags.countP (fun f => f.Category == "Pension")) ≤ 1 ∧
    ((reportOf p g).flags.countP (fun f => f.Category == "Benefits Accrual")) ≤ 1 ∧
    ((reportOf p g).flags.countP (fun f => f.Category == "Retro Adjustment")) ≤ 2 ∧
    ((reportOf p g).flags.all (fun f =>
      f.Category == "Pension" || f.Category == "Benefits Accrual" ||
      f.Category == "Retro Adjustment")) = true := by
  rw [reportOf_flags]
  simp only [emittedF, pensionF, benefitF, retroF]
  split_ifs <;> simp [List.countP_cons, List.countP_nil, List.countP_append]

/-- Witness for the tolerance claim: in spec scenario C the CC2
cost-center comparison is out of tolerance and its record is emitted. -/
theorem variance_iff_tolerance_witness :
    ((ccV pTwoCC gTwoCC).any fun v => v.Type_ == ccLabel "CC2") = true := by
  refine ((variance_iff_tolerance pTwoCC gTwoCC).2.2.2.2.2.2.1 "CC2" (by decide)).mpr ?_
  simp [cc_variance, cc_payroll_gross, cc_gl_expense, cc_payroll, cc_gl, sumBy,
    List.filter_cons, pTwoCC, gTwoCC, pRow0, gRow0] <;> norm_num

/-- Witness for the severity-policy claim: `pGross100` with an empty GL
has a gross difference of exactly 100, emitted with severity Medium. -/
theorem totals_severity_policy_witness :
    ∃ v ∈ totalsV pGross100 [], v.Type_ = "Gross Pay Variance" ∧ v.Severity = "Medium" := by
  refine (totals_severity_policy pGross100 []).2.1 ?_
  simp [gross_variance, total_gross, gl_salary_expense, sumBy, pGross100, pRow0] <;> norm_num

/-- Witness for the benefit-accrual pairing claim, spec scenario B. -/
theorem benefit_flag_variance_pairing_witness :
    (benefitF pBenefits800 []).map (fun f => f.Category) = ["Benefits Accrual"] ∧
    (benefitV pBenefits800 []).map (fun v => (v.Type_, v.Severity)) =
      [("Employer Benefits Variance", "High")] := by
  refine (benefit_flag_variance_pairing pBenefits800 []).1 ?_
  simp [benefits_variance, payroll_employer_benefits, gl_benefits_expense, sumBy,
    pBenefits800, pRow0] <;> norm_num

/-- Witness for the cost-center claim, spec scenario C: exactly one
CC2-labelled record. -/
theorem cost_center_balancing_policy_witness :
    ((ccV pTwoCC gTwoCC).countP (fun v => v.Type_ == ccLabel "CC2")) = 1 := by
  have hcond : |cc_variance pTwoCC gTwoCC "CC2"| > 1/100 := by
    simp [cc_variance, cc_payroll_gross, cc_gl_expense, cc_payroll, cc_gl, sumBy,
      List.filter_cons, pTwoCC, gTwoCC, pRow0, gRow0] <;> norm_num
  have h := (cost_center_balancing_policy pTwoCC gTwoCC).1 "CC2" (by decide)
  rw [h, if_pos hcond]

/-! ### Claim C1: a second `reconcile()` call -/

theorem emittedV_len_pGross100 : (emittedV pGross100 []).length = 2 := by
  simp [emittedV, totalsV, pensionV, benefitV, ccV, ccEmit, payrollCCs, uniques,
    gross_variance, net_variance, deduction_variance, total_gross, total_net,
    total_deductions, gl_salary_expense, gl_cash_payout, gl_total_liabilities,
    pension_variance, payroll_pension, gl_pension_payable,
    employer_variance, payroll_employer_pension, gl_employer_pension,
    benefits_variance, payroll_employer_benefits, gl_benefits_expense,
    cc_variance, cc_payroll_gross, cc_gl_expense, cc_payroll, cc_gl, sumBy,
    List.filter_cons, pGross100, pRow0] <;> norm_num

theorem reconcile_twice_reports (p : List PayrollRow) (g : List GLRow) :
    (reconcile (Engine.init p g)).1 = generateReportFrom (emittedV p g) (emittedF p g) ∧
    (reconcile ((reconcile (Engine.init p g)).2)).1 =
      generateReportFrom (emittedV p g ++ emittedV p g) (emittedF p g ++ emittedF p g) := by
  constructor
  · exact reportOf_eq p g
  · simp [reconcile, Engine.init, runChecks_eq, generateReport]

/-- Claim C1 (amended): a second `reconcile()` call on the untouched
engine returns a report whose variance and flag lists are the first
report's lists duplicated — the accumulators are never reset — so the
two reports are identical exactly when the first call emitted no
variances and no flags. -/
theorem reconcile_second_call_duplicates (p : List PayrollRow) (g : List GLRow) :
    ((reconcile ((reconcile (Engine.init p g)).2)).1.variances =
      (reconcile (Engine.init p g)).1.variances ++ (reconcile (Engine.init p g)).1.variances) ∧
    ((reconcile ((reconcile (Engine.init p g)).2)).1.flags =
      (reconcile (Engine.init p g)).1.flags ++ (reconcile (Engine.init p g)).1.flags) ∧
    ((reconcile ((reconcile (Engine.init p g)).2)).1 = (reconcile (Engine.init p g)).1 ↔
      ((reconcile (Engine.init p g)).1.variances = [] ∧
       (reconcile (Engine.init p g)).1.flags = [])) := by
  obtain ⟨h1, h2⟩ := reconcile_twice_reports p g
  rw [h1, h2]
  simp only [generateReportFrom, Report.mk.injEq]
  refine ⟨trivial, trivial, ?_⟩
  constructor
  · rintro ⟨-, hv, hf⟩
    constructor
    · have hlen := congrArg List.length hv
      rw [List.length_append] at hlen
      exact List.length_eq_zero.mp (by omega)
    · have hlen := congrArg List.length hf
      rw [List.length_append] at hlen
      exact List.length_eq_zero.mp (by omega)
  · rintro ⟨hv, hf⟩
    simp [hv, hf]

/-- Claim C1 counterexample: with `pGross100` and an empty GL, the
second call's report has 4 variance records against the first's 2, so
the reports differ. -/
theorem reconcile_not_idempotent_cx :
    (reconcile ((reconcile (Engine.init pGross100 [])).2)).1 ≠
      (reconcile (Engine.init pGross100 [])).1 := by
  obtain ⟨h1, h2⟩ := reconcile_twice_reports pGross100 []
  rw [h1, h2]
  intro h
  have hv := congrArg (fun r => r.variances.length) h
  simp only [generateReportFrom, List.length_append] at hv
  rw [emittedV_len_pGross100] at hv
  omega

/-! ### Claim C2: missing columns -/

theorem andThenE_ok (a : α) (k : α → Except String β) :
    andThenE (Except.ok a) k = k a := rfl

theorem andThenE_error (e : String) (k : α → Except String β) :
    andThenE (Except.error e) k = Except.error e := rfl

/-- Claim C2 (amended): when a payroll column the engine reads is
absent from the payroll table, `reconcile()` aborts with a `KeyError`
whose payload is exactly the name of a missing read column (of the
table it was read from) — no report, empty or otherwise, is returned;
the error does not name the table. -/
theorem reconcileE_missing_read_column (pt gt : RawTable)
    (h : ∃ c ∈ readPayrollCols, c ∉ pt.cols) :
    ∃ c, reconcileE pt gt = Except.error c ∧
      ((c ∈ readPayrollCols ∧ c ∉ pt.cols) ∨ (c ∈ readGLCols ∧ c ∉ gt.cols)) := by
  obtain ⟨c0, hc0, hn0⟩ := h
  by_cases h1 : "Gross_Pay" ∈ pt.cols
  · by_cases h2 : "Net_Pay" ∈ pt.cols
    · by_cases h3 : "Total_Deductions" ∈ pt.cols
      · by_cases h4 : "GL_Account" ∈ gt.cols
        · by_cases h5 : "Debit" ∈ gt.cols
          · by_cases h6 : "Credit" ∈ gt.cols
            · by_cases h7 : "Pension_Deduction" ∈ pt.cols
              · by_cases h8 : "Employer_Pension_Contribution" ∈ pt.cols
                · by_cases h9 : "Employer_Benefits" ∈ pt.cols
                  · by_cases h10 : "Bonus" ∈ pt.cols
                    · by_cases h11 : "Overtime" ∈ pt.cols
                      · by_cases h12 : "Cost_Center" ∈ pt.cols
                        · exfalso
                          simp only [readPayrollCols, List.mem_cons,
                            List.mem_singleton, List.not_mem_nil, or_false] at hc0
                          rcases hc0 with rfl | rfl | rfl | rfl | rfl | rfl | rfl | rfl | rfl <;>
                            contradiction
                        · exact ⟨"Cost_Center", by
                            simp [reconcileE, colE, filterBy, andThenE_ok, andThenE_error,
                              h1, h2, h3, h4, h5, h6, h7, h8, h9, h10, h11, h12],
                            Or.inl ⟨by decide, h12⟩⟩
                      · exact ⟨"Overtime", by
                          simp [reconcileE, colE, filterBy, andThenE_ok, andThenE_error,
                            h1, h2, h3, h4, h5, h6, h7, h8, h9, h10, h11],
                          Or.inl ⟨by decide, h11⟩⟩
                    · exact ⟨"Bonus", by
                        simp [reconcileE, colE, filterBy, andThenE_ok, andThenE_error,
                          h1, h2, h3, h4, h5, h6, h7, h8, h9, h10],
                        Or.inl ⟨by decide, h10⟩⟩
                  · exact ⟨"Employer_Benefits", by
                      simp [reconcileE, colE, filterBy, andThenE_ok, andThenE_error,
                        h1, h2, h3, h4, h5, h6, h7, h8, h9],
                      Or.inl ⟨by decide, h9⟩⟩
                · exact ⟨"Employer_Pension_Contribution", by
                    simp [reconcileE, colE, filterBy, andThenE_ok, andThenE_error,
                      h1, h2, h3, h4, h5, h6, h7, h8],
                    Or.inl ⟨by decide, h8⟩⟩
              · exact ⟨"Pension_Deduction", by
                  simp [reconcileE, colE, filterBy, andThenE_ok, andThenE_error,
                    h1, h2, h3, h4, h5, h6, h7],
                  Or.inl ⟨by decide, h7⟩⟩
            · exact ⟨"Credit", by
                simp [reconcileE, colE, filterBy, andThenE_ok, andThenE_error,
                  h1, h2, h3, h4, h5, h6],
                Or.inr ⟨by decide, h6⟩⟩
          · exact ⟨"Debit", by
              simp [reconcileE, colE, filterBy, andThenE_ok, andThenE_error,
                h1, h2, h3, h4, h5],
              Or.inr ⟨by decide, h5⟩⟩
        · exact ⟨"GL_Account", by
            simp [reconcileE, colE, filterBy, andThenE_ok, andThenE_error, h1, h2, h3, h4],
            Or.inr ⟨by decide, h4⟩⟩
      · exact ⟨"Total_Deductions", by
          simp [reconcileE, colE, filterBy, andThenE_ok, andThenE_error, h1, h2, h3],
          Or.inl ⟨by decide, h3⟩⟩
    · exact ⟨"Net_Pay", by
        simp [reconcileE, colE, filterBy, andThenE_ok, andThenE_error, h1, h2],
        Or.inl ⟨by decide, h2⟩⟩
  · exact ⟨"Gross_Pay", by
      simp [reconcileE, colE, filterBy, andThenE_ok, andThenE_error, h1],
      Or.inl ⟨by decide, h1⟩⟩

/-- Witness: a payroll table with every required column except
`Gross_Pay` aborts `reconcile()` with an error naming a missing read
column. -/
theorem reconcileE_missing_read_column_witness :
    ∃ c, reconcileE pRawNoGross gRawFull = Except.error c ∧
      ((c ∈ readPayrollCols ∧ c ∉ pRawNoGross.cols) ∨
       (c ∈ readGLCols ∧ c ∉ gRawFull.cols)) :=
  reconcileE_missing_read_column pRawNoGross gRawFull ⟨"Gross_Pay", by decide, by decide⟩

/-- Claim C2 counterexample: with `Gross_Pay` missing from the payroll
table, the raised error is exactly `KeyError('Gross_Pay')`, which never
mentions the offending table; and a required-but-unread column such as
`Employee_Name` missing causes no failure at all — `reconcile()`
returns an ordinary report. -/
theorem schema_error_names_only_column_cx :
    reconcileE pRawNoGross gRawFull = Except.error "Gross_Pay" ∧
    mentionsStr "Gross_Pay" "payroll" = false ∧
    mentionsStr "Gross_Pay" "Payroll" = false ∧
    (reconcileE pRawNoName gRawFull).isOk = true := by
  exact ⟨rfl, by decide, by decide, rfl⟩

end Payroll
